import Mathlib

/-!
Shallow embedding of `src/pages/Profile.tsx` (profile page of the
outmentor mentoring platform): the data model (profiles with role-specific
detail records, follow edges, connection rows), the three data operations
(`loadProfile`, `loadFollowerInfo`, `toggleFollow`), the connect-button
click handler and the render dispatch, together with theorems settling the
specification claims about them.

The remote Supabase store is modelled as lists of rows; each query in the
source becomes the corresponding filter/lookup over those lists.
`maybeSingle()` yields the row when exactly one matches and `null`
otherwise (zero rows, or the error case of several rows, which the source
ignores by destructuring only `data`).
-/

namespace Outmentor

/-- `user_type` column: the source's `'mentor' | 'team'` union. -/
inductive UserType
  | mentor
  | team
deriving DecidableEq, Repr

/-- `team_type` field of `team_details`: `'FTC' | 'FLL'`. -/
inductive TeamType
  | FTC
  | FLL
deriving DecidableEq, Repr

instance : BEq UserType := ⟨fun a b => decide (a = b)⟩

/-- `mentor_details` sub-record of the `Profile` interface. -/
structure MentorDetails where
  mentor_ftc : Bool
  mentor_fll : Bool
  knowledge_areas : List String
deriving DecidableEq, Repr

/-- `team_details` sub-record of the `Profile` interface. -/
structure TeamDetails where
  team_number : String
  team_type : TeamType
  interest_areas : List String
deriving DecidableEq, Repr

/-- A row of the `profiles` table (base columns, before the detail join). -/
structure ProfileRow where
  id : String
  user_type : UserType
  full_name : String
  email : String
  state : String
  city : String
  bio : String
  avatar_url : Option String
  cover_image_url : Option String
  linkedin_url : Option String
  is_public : Bool
  created_at : String
deriving DecidableEq, Repr

/-- The `Profile` interface of the source: base columns plus the two
optional detail records delivered by the eager join
`select('*, mentor_details(*), team_details(*)')`. -/
structure Profile where
  id : String
  user_type : UserType
  full_name : String
  email : String
  state : String
  city : String
  bio : String
  avatar_url : Option String
  cover_image_url : Option String
  linkedin_url : Option String
  is_public : Bool
  created_at : String
  mentor_details : Option MentorDetails
  team_details : Option TeamDetails
deriving DecidableEq, Repr

/-- The projection of a follower's profile delivered by the follower
query's nested select `profiles:follower_id(id, full_name, avatar_url,
user_type)`. -/
structure ProfileSummary where
  id : String
  full_name : String
  avatar_url : Option String
  user_type : UserType
deriving DecidableEq, Repr

/-- A row of the `followers` table: the ordered follow edge
(`follower_id`, `following_id`).  The surrogate `id` column is not
modelled: the source reads it only through `select('id') … maybeSingle()`
as a pure existence probe. -/
structure FollowerRow where
  follower_id : String
  following_id : String
deriving DecidableEq, Repr

/-- A row of the `connections` table as the click handler inserts it. -/
structure ConnectionRow where
  mentor_id : String
  team_id : String
  status : String
deriving DecidableEq, Repr

/-- The remote store: the three tables the component queries, with the
detail tables keyed by profile id. -/
structure Store where
  profiles : List ProfileRow
  mentor_details : List (String × MentorDetails)
  team_details : List (String × TeamDetails)
  followers : List FollowerRow
  connections : List ConnectionRow
deriving DecidableEq, Repr

/-- The eager join of one `profiles` row with its role-specific detail
records, as produced by `select('*, mentor_details(*), team_details(*)')`. -/
def joinDetails (st : Store) (r : ProfileRow) : Profile :=
  { id := r.id
    user_type := r.user_type
    full_name := r.full_name
    email := r.email
    state := r.state
    city := r.city
    bio := r.bio
    avatar_url := r.avatar_url
    cover_image_url := r.cover_image_url
    linkedin_url := r.linkedin_url
    is_public := r.is_public
    created_at := r.created_at
    mentor_details := (st.mentor_details.find? (fun d => d.1 == r.id)).map Prod.snd
    team_details := (st.team_details.find? (fun d => d.1 == r.id)).map Prod.snd }

/-- Outcome of the profile fetch: either the backend answers with the
matching joined rows, or the request fails in transit.  The source
destructures only `data`, so a failure is observed as `data = null`. -/
inductive ProfileFetchOutcome
  | success (rows : List Profile)
  | failure
deriving DecidableEq, Repr

/-- The `data` field the source reads after `maybeSingle()`: the single
row when exactly one matched, `null` for zero rows, and `null` again on
error (several rows, or transport failure). -/
def maybeSingleData : ProfileFetchOutcome → Option Profile
  | .success [p] => some p
  | .success _ => none
  | .failure => none

/-- The component's local state hooks:
`profile`, `isFollowing`, `followerCount`, `followers`, `showFollowers`,
`loading`. -/
structure ComponentState where
  profile : Option Profile
  isFollowing : Bool
  followerCount : Nat
  followers : List ProfileSummary
  showFollowers : Bool
  loading : Bool
deriving DecidableEq, Repr

/-- Tail of `loadProfile` after the fetch resolves:
`setProfile(data); setLoading(false)`. -/
def loadProfileWith (o : ProfileFetchOutcome) (s : ComponentState) : ComponentState :=
  { s with profile := maybeSingleData o, loading := false }

/-- The rows the profile query matches: `eq('id', targetProfileId)`. -/
def profileQueryRows (st : Store) (targetProfileId : String) : List Profile :=
  (st.profiles.filter (fun r => r.id == targetProfileId)).map (joinDetails st)

/-- `loadProfile` on a successful round trip to the store. -/
def loadProfile (st : Store) (targetProfileId : String) (s : ComponentState) : ComponentState :=
  loadProfileWith (.success (profileQueryRows st targetProfileId)) s

/-- The summary projection of a `profiles` row. -/
def summaryOf (r : ProfileRow) : ProfileSummary :=
  { id := r.id
    full_name := r.full_name
    avatar_url := r.avatar_url
    user_type := r.user_type }

/-- One element of the follower query's result: the edge's `follower_id`
together with the nested `profiles` object, which is `null` when the
joined profile row is not visible in the store. -/
structure FollowerFetchRow where
  follower_id : String
  profiles : Option ProfileSummary
deriving DecidableEq, Repr

/-- The follower query
`from('followers').select('follower_id, profiles:follower_id(…)')
.eq('following_id', targetProfileId)`: every edge whose `following_id` is
the target, each joined with the follower's summary profile. -/
def fetchFollowers (st : Store) (targetProfileId : String) : List FollowerFetchRow :=
  (st.followers.filter (fun e => e.following_id == targetProfileId)).map
    (fun e =>
      { follower_id := e.follower_id
        profiles := (st.profiles.find? (fun r => r.id == e.follower_id)).map summaryOf })

/-- The `isFollowing` probe
`select('id').eq('follower_id', v).eq('following_id', t).maybeSingle()`
followed by `!!following`: true exactly when the store holds a single
matching edge (`maybeSingle` yields `null` both for zero matches and for
the error case of several). -/
def fetchFollowEdgeExists (st : Store) (followerId followingId : String) : Bool :=
  match st.followers.filter
      (fun e => e.follower_id == followerId && e.following_id == followingId) with
  | [_] => true
  | _ => false

/-- `loadFollowerInfo`: bail out when no viewer is authenticated;
otherwise set `followerCount` to the raw row count, set `followers` to
the non-null joined summaries (`.map(f => f.profiles).filter(Boolean)`),
and, when the viewer is not the target, re-derive `isFollowing` from the
store. -/
def loadFollowerInfo (currentProfile : Option Profile) (targetProfileId : String)
    (st : Store) (s : ComponentState) : ComponentState :=
  match currentProfile with
  | none => s
  | some v =>
      let followersList := fetchFollowers st targetProfileId
      let s1 : ComponentState :=
        { s with
          followerCount := followersList.length
          followers := (followersList.map (fun f => f.profiles)).filterMap id }
      if v.id == targetProfileId then s1
      else { s1 with isFollowing := fetchFollowEdgeExists st v.id targetProfileId }

/-- `delete().eq('follower_id', f).eq('following_id', t)` on `followers`. -/
def deleteFollowEdge (st : Store) (followerId followingId : String) : Store :=
  { st with
    followers := st.followers.filter
      (fun e => !(e.follower_id == followerId && e.following_id == followingId)) }

/-- `insert({follower_id, following_id})` on `followers`. -/
def insertFollowEdge (st : Store) (followerId followingId : String) : Store :=
  { st with followers := st.followers ++ [⟨followerId, followingId⟩] }

/-- `toggleFollow`: no-op unless a viewer is authenticated and a profile
is loaded; then delete or insert the (viewer, profile) edge according to
`isFollowing`, flip the local flag, and re-run `loadFollowerInfo` against
the mutated store.  Returns the new component state and the new store. -/
def toggleFollow (currentProfile : Option Profile) (targetProfileId : String)
    (s : ComponentState) (st : Store) : ComponentState × Store :=
  match currentProfile, s.profile with
  | some v, some p =>
      let st' :=
        if s.isFollowing then deleteFollowEdge st v.id p.id
        else insertFollowEdge st v.id p.id
      let s1 : ComponentState := { s with isFollowing := !s.isFollowing }
      (loadFollowerInfo (some v) targetProfileId st' s1, st')
  | _, _ => (s, st)

/-- A call to the navigation collaborator `onNavigate(view, id?)`. -/
structure NavCall where
  view : String
  id : Option String
deriving DecidableEq, Repr

/-- The existence query of the connect handler:
`.eq(targetType, profile.id).eq(currentType, currentProfile!.id)`, where
`targetType` names the column picked by the target's role and
`currentType` the column picked by the viewer's role. -/
def connectionQueryMatch (viewerIsMentor targetIsMentor : Bool)
    (profileId viewerId : String) (c : ConnectionRow) : Bool :=
  (if targetIsMentor then c.mentor_id == profileId else c.team_id == profileId) &&
  (if viewerIsMentor then c.mentor_id == viewerId else c.team_id == viewerId)

/-- The `data` value the existence query's `maybeSingle()` hands to the
`.then` callback: the row when exactly one connection matched, `null`
otherwise. -/
def connectionQueryData (currentProfile p : Profile) (st : Store) : Option ConnectionRow :=
  match st.connections.filter
      (connectionQueryMatch (currentProfile.user_type == UserType.mentor)
        (p.user_type == UserType.mentor) p.id currentProfile.id) with
  | [c] => some c
  | _ => none

/-- The connect ("Mensagem") button's `onClick` handler, given the viewer
profile the source dereferences with `currentProfile!`: query for an
existing connection, insert `{mentor_id, team_id, status: 'accepted'}`
when `maybeSingle` returned `null`, then navigate to the target's
profile.  Returns the new store and the navigation call. -/
def connectOnClick (currentProfile : Profile) (p : Profile) (st : Store) :
    Store × NavCall :=
  let isMentor := currentProfile.user_type == UserType.mentor
  match connectionQueryData currentProfile p st with
  | none =>
      ({ st with
         connections := st.connections ++
           [{ mentor_id := if isMentor then currentProfile.id else p.id
              team_id := if isMentor then p.id else currentProfile.id
              status := "accepted" }] },
       ⟨"profile", some p.id⟩)
  | some _ => (st, ⟨"profile", some p.id⟩)

/-- `isOwnProfile`: `currentProfile?.id === profile.id` (false when no
viewer is authenticated, since `undefined === profile.id` is false). -/
def isOwnProfile (currentProfile : Option Profile) (p : Profile) : Bool :=
  match currentProfile with
  | some v => v.id == p.id
  | none => false

/-- What the component renders: the spinner, the not-found view with its
back-navigation target, or the profile view.  The profile view records
whether it is the viewer's own profile, whether the follow toggle is
shown, and whether the connect ("Mensagem") button is shown. -/
inductive View
  | loadingView
  | notFoundView (backTarget : String)
  | profileView (isOwn followShown connectShown : Bool)
deriving DecidableEq, Repr

/-- The render dispatch of the component: spinner while `loading`,
"Perfil não encontrado" with a back button to the dashboard when no
profile is loaded, otherwise the profile view.  The follow and connect
buttons render under `!isOwnProfile`, and the connect button additionally
under `currentProfile?.user_type !== profile.user_type` (vacuously true
when no viewer is authenticated). -/
def render (currentProfile : Option Profile) (s : ComponentState) : View :=
  if s.loading then .loadingView
  else
    match s.profile with
    | none => .notFoundView "dashboard"
    | some p =>
        let own := isOwnProfile currentProfile p
        .profileView own (!own)
          (!own && !((currentProfile.map (fun v => v.user_type)) == some p.user_type))

/-- The identifier of whichever of (viewer, target) holds the mentor
role, as the spec's canonical role assignment describes it (meaningful
when the two roles differ). -/
def mentorSideId (v p : Profile) : String :=
  if v.user_type = UserType.mentor then v.id else p.id

/-- The identifier of whichever of (viewer, target) holds the team role
(meaningful when the two roles differ). -/
def teamSideId (v p : Profile) : String :=
  if v.user_type = UserType.team then v.id else p.id

/-! ### Concrete fixtures used by witnesses and counterexamples -/

def exMentorDetails : MentorDetails := ⟨true, false, ["robotics"]⟩

def exTeamDetails : TeamDetails := ⟨"1234", .FTC, ["java"]⟩

def exMentorRow : ProfileRow :=
  ⟨"m1", .mentor, "Ana", "ana@mail", "SP", "Campinas", "oi", none, none, none, true, "2024"⟩

def exTeamRow : ProfileRow :=
  ⟨"t1", .team, "Robo", "robo@mail", "RJ", "Rio", "hello", none, none, none, true, "2023"⟩

/-- Viewer-side joined profile for the mentor fixture. -/
def exMentor : Profile :=
  ⟨"m1", .mentor, "Ana", "ana@mail", "SP", "Campinas", "oi", none, none, none, true, "2024",
    some exMentorDetails, none⟩

/-- Target-side joined profile for the team fixture. -/
def exTeam : Profile :=
  ⟨"t1", .team, "Robo", "robo@mail", "RJ", "Rio", "hello", none, none, none, true, "2023",
    none, some exTeamDetails⟩

/-- A store holding the two fixture profiles, their detail rows, and one
follow edge m1 → t1. -/
def exStore : Store :=
  ⟨[exMentorRow, exTeamRow], [("m1", exMentorDetails)], [("t1", exTeamDetails)],
    [⟨"m1", "t1"⟩], []⟩

/-- `exStore` with a follow edge whose follower has no visible profile
row: the nested join of the follower query yields `null` for it. -/
def danglingStore : Store :=
  ⟨[exMentorRow, exTeamRow], [("m1", exMentorDetails)], [("t1", exTeamDetails)],
    [⟨"ghost", "t1"⟩], []⟩

/-- `exStore` with the m1/t1 connection already present. -/
def connectedStore : Store :=
  ⟨[exMentorRow, exTeamRow], [("m1", exMentorDetails)], [("t1", exTeamDetails)],
    [⟨"m1", "t1"⟩], [⟨"m1", "t1", "accepted"⟩]⟩

/-- Initial component state: nothing loaded, spinner showing. -/
def s0 : ComponentState := ⟨none, false, 0, [], false, true⟩

/-- State after loading the team profile, viewer already following it. -/
def sFollowing : ComponentState := ⟨some exTeam, true, 1, [], false, false⟩

/-- State after loading the team profile, viewer not following it. -/
def sNotFollowing : ComponentState := ⟨some exTeam, false, 1, [], false, false⟩

/-! ### Helper lemmas -/

/-- The follower count the Reader stores is the raw length of the fetched
row list, in both branches of the own-profile test. -/
lemma loadFollowerInfo_count (v : Profile) (t : String) (st : Store) (s : ComponentState) :
    (loadFollowerInfo (some v) t st s).followerCount = (fetchFollowers st t).length := by
  cases h : v.id == t <;> simp [loadFollowerInfo, h]

/-- The follower list the Reader stores is the fetched rows' nested
profiles with the `null` entries filtered out, in both branches. -/
lemma loadFollowerInfo_followers (v : Profile) (t : String) (st : Store) (s : ComponentState) :
    (loadFollowerInfo (some v) t st s).followers =
      ((fetchFollowers st t).map (fun f => f.profiles)).filterMap id := by
  cases h : v.id == t <;> simp [loadFollowerInfo, h]

/-- Filtering out the `none` results of `g` and taking the length counts
the elements on which `g` is `some`. -/
lemma length_filterMap_eq_length_filter {α β : Type} (g : α → Option β) (l : List α) :
    (l.filterMap g).length = (l.filter (fun a => (g a).isSome)).length := by
  induction l with
  | nil => rfl
  | cons a l ih =>
      cases h : g a <;>
        simp [List.filterMap_cons, List.filter_cons, h, ih]

/-- Deleting the rows matched by the follow-edge predicate removes
exactly the matched rows from the count of edges pointing at the target. -/
lemma count_after_delete (l : List FollowerRow) (vid pid : String) :
    ((l.filter (fun e => !(e.follower_id == vid && e.following_id == pid))).filter
        (fun e => e.following_id == pid)).length
      + (l.filter (fun e => e.follower_id == vid && e.following_id == pid)).length
      = (l.filter (fun e => e.following_id == pid)).length := by
  induction l with
  | nil => rfl
  | cons a l ih =>
      cases h1 : a.follower_id == vid <;> cases h2 : a.following_id == pid <;>
        simp_all [List.filter_cons] <;> omega

/-- `==` on `UserType` is decidable equality. -/
@[simp] lemma userType_beq (a b : UserType) : (a == b) = decide (a = b) := rfl

/-- The fetched follower rows are in bijection with the store's edges
towards the target, so their count is the raw edge count. -/
lemma fetchFollowers_length (st : Store) (t : String) :
    (fetchFollowers st t).length =
      (st.followers.filter (fun e => e.following_id == t)).length := by
  simp [fetchFollowers]

/-- State after loading the team profile with no viewer authenticated. -/
def sLoadedTeam : ComponentState := ⟨some exTeam, false, 0, [], false, false⟩

/-! ### Claim theorems -/

/-- C6: for every identifier whose profile query matches exactly the
stored row `r`, the Profile Loader yields that row eagerly joined with
its detail records; the join is role-correct (mentor rows get
`mentor_details`, team rows get `team_details`) whenever the detail
tables hold the row's record; and the loading flag transitions
true → false. -/
theorem C6_profile_loader (st : Store) (pid : String) (r : ProfileRow) (s : ComponentState)
    (hr : st.profiles.filter (fun q => q.id == pid) = [r])
    (hm : r.user_type = UserType.mentor → (st.mentor_details.find? (fun d => d.1 == r.id)).isSome)
    (ht : r.user_type = UserType.team → (st.team_details.find? (fun d => d.1 == r.id)).isSome)
    (hl : s.loading = true) :
    (loadProfile st pid s).profile = some (joinDetails st r) ∧
    ((joinDetails st r).user_type = UserType.mentor →
      (joinDetails st r).mentor_details.isSome) ∧
    ((joinDetails st r).user_type = UserType.team →
      (joinDetails st r).team_details.isSome) ∧
    s.loading = true ∧ (loadProfile st pid s).loading = false := by
  refine ⟨?_, ?_, ?_, hl, rfl⟩
  · simp [loadProfile, profileQueryRows, hr, loadProfileWith, maybeSingleData]
  · intro h
    simp only [joinDetails] at h ⊢
    simpa using hm h
  · intro h
    simp only [joinDetails] at h ⊢
    simpa using ht h

/-- Witness for C6 at the mentor fixture. -/
theorem C6_witness :
    (loadProfile exStore "m1" s0).profile = some (joinDetails exStore exMentorRow) ∧
    ((joinDetails exStore exMentorRow).user_type = UserType.mentor →
      (joinDetails exStore exMentorRow).mentor_details.isSome) ∧
    ((joinDetails exStore exMentorRow).user_type = UserType.team →
      (joinDetails exStore exMentorRow).team_details.isSome) ∧
    s0.loading = true ∧ (loadProfile exStore "m1" s0).loading = false :=
  C6_profile_loader exStore "m1" exMentorRow s0 (by decide) (by decide) (by decide) rfl

/-- C7: for every identifier whose profile query matches no stored row,
loading yields the not-found sentinel (`profile = none`) with the loading
flag cleared, the component renders the not-found view with its
back-to-dashboard action, and a transient fetch failure produces exactly
the same state transition as an empty result. -/
theorem C7_not_found (st : Store) (pid : String) (cp : Option Profile) (s : ComponentState)
    (h : st.profiles.filter (fun q => q.id == pid) = []) :
    (loadProfile st pid s).profile = none ∧
    (loadProfile st pid s).loading = false ∧
    render cp (loadProfile st pid s) = View.notFoundView "dashboard" ∧
    loadProfileWith ProfileFetchOutcome.failure s =
      loadProfileWith (ProfileFetchOutcome.success []) s := by
  have hq : profileQueryRows st pid = [] := by
    simp [profileQueryRows, h]
  refine ⟨?_, rfl, ?_, rfl⟩
  · simp [loadProfile, hq, loadProfileWith, maybeSingleData]
  · simp [loadProfile, hq, loadProfileWith, maybeSingleData, render]

/-- Witness for C7 at an identifier absent from the fixture store. -/
theorem C7_witness :
    (loadProfile exStore "zz" s0).profile = none ∧
    (loadProfile exStore "zz" s0).loading = false ∧
    render none (loadProfile exStore "zz" s0) = View.notFoundView "dashboard" ∧
    loadProfileWith ProfileFetchOutcome.failure s0 =
      loadProfileWith (ProfileFetchOutcome.success []) s0 :=
  C7_not_found exStore "zz" none s0 (by decide)

/-- C10: with no authenticated viewer (whatever the local state, a
loaded profile included), or with no loaded profile, `toggleFollow` is a
complete no-op: the store sees no insert or delete and every piece of
local component state is unchanged. -/
theorem C10_toggleFollow_noop (cp : Profile) (t : String) (s s2 : ComponentState)
    (st st2 : Store) (h : s2.profile = none) :
    toggleFollow none t s st = (s, st) ∧
    toggleFollow (some cp) t s2 st2 = (s2, st2) := by
  constructor
  · rfl
  · simp [toggleFollow, h]

/-- Witness for C10: the no-viewer case at a state with the team profile
loaded and the flag set, and the no-profile case at the initial state. -/
theorem C10_witness :
    toggleFollow none "t1" sFollowing exStore = (sFollowing, exStore) ∧
    toggleFollow (some exMentor) "t1" s0 exStore = (s0, exStore) :=
  C10_toggleFollow_noop exMentor "t1" sFollowing s0 exStore exStore rfl

/-- C5 counterexample: with no authenticated viewer the Reader returns
immediately, so nothing is populated from the store — here the store
holds one follow edge towards t1, yet the state (follower count 0, empty
list) is left untouched, contradicting the claim that list and count are
populated even when no viewer is authenticated. -/
theorem C5_counterexample :
    loadFollowerInfo none "t1" exStore s0 = s0 ∧
    s0.followerCount = 0 ∧ s0.followers = [] ∧
    (fetchFollowers exStore "t1").length = 1 := by
  refine ⟨rfl, rfl, rfl, by decide⟩

/-- C5 amended: the Reader populates the follower list and count from
the store only when a viewer is authenticated — with no viewer it leaves
the state unchanged; with a viewer it stores the raw fetched edge count
and the fetched rows' follower summaries with the null joins filtered
out. -/
theorem C5_social_graph_reader (v : Profile) (t : String) (st : Store) (s : ComponentState) :
    loadFollowerInfo none t st s = s ∧
    (loadFollowerInfo (some v) t st s).followerCount = (fetchFollowers st t).length ∧
    (loadFollowerInfo (some v) t st s).followers =
      ((fetchFollowers st t).map (fun f => f.profiles)).filterMap id :=
  ⟨rfl, loadFollowerInfo_count v t st s, loadFollowerInfo_followers v t st s⟩

/-- C4 counterexample: a load cycle over a store holding one follow edge
whose follower profile is not visible produces follower count 1 but an
empty displayed follower list, contradicting the claim that count and
displayed list are always mutually consistent. -/
theorem C4_counterexample :
    (loadFollowerInfo (some exMentor) "t1" danglingStore s0).followerCount = 1 ∧
    (loadFollowerInfo (some exMentor) "t1" danglingStore s0).followers.length = 0 := by
  constructor <;> decide

/-- C4 amended: after a completed load cycle the follower count equals
the raw number of fetched follow edges (not deduplicated), the displayed
list holds one entry per fetched edge whose follower summary resolved,
and count and list length agree whenever every fetched edge's summary is
present. -/
theorem C4_count_list_consistency (v : Profile) (t : String) (st : Store)
    (s : ComponentState) :
    (loadFollowerInfo (some v) t st s).followerCount = (fetchFollowers st t).length ∧
    (loadFollowerInfo (some v) t st s).followers.length =
      ((fetchFollowers st t).filter (fun f => f.profiles.isSome)).length ∧
    ((∀ f ∈ fetchFollowers st t, f.profiles.isSome) →
      (loadFollowerInfo (some v) t st s).followerCount =
        (loadFollowerInfo (some v) t st s).followers.length) := by
  have hlen : (loadFollowerInfo (some v) t st s).followers.length =
      ((fetchFollowers st t).filter (fun f => f.profiles.isSome)).length := by
    rw [loadFollowerInfo_followers]
    rw [List.filterMap_map]
    simpa using length_filterMap_eq_length_filter (fun f => f.profiles) (fetchFollowers st t)
  refine ⟨loadFollowerInfo_count v t st s, hlen, ?_⟩
  intro hall
  rw [loadFollowerInfo_count, hlen]
  have : (fetchFollowers st t).filter (fun f => f.profiles.isSome) = fetchFollowers st t := by
    rw [List.filter_eq_self]
    intro a ha
    simpa using hall a ha
  rw [this]

/-- Witness for C4's conditional consistency at the fixture store, whose
single fetched edge's follower summary is present. -/
theorem C4_witness :
    (loadFollowerInfo (some exMentor) "t1" exStore s0).followerCount =
      (loadFollowerInfo (some exMentor) "t1" exStore s0).followers.length :=
  (C4_count_list_consistency exMentor "t1" exStore s0).2.2 (by decide)

/-- C1: for an authenticated viewer and a loaded profile, `toggleFollow`
is the two-state machine over `isFollowing`: with the flag set it deletes
the (viewer, target) edge from the store and clears the flag, with the
flag clear it inserts the edge and sets the flag, and in both cases the
resulting local state is exactly the Social Graph Reader re-run against
the mutated store (a full re-fetch, not an incremental update). -/
theorem C1_toggleFollow_two_state (v p : Profile) (t : String) (s : ComponentState)
    (st : Store) (hp : s.profile = some p) :
    (s.isFollowing = true →
      toggleFollow (some v) t s st =
        (loadFollowerInfo (some v) t (deleteFollowEdge st v.id p.id)
            { s with isFollowing := false },
         deleteFollowEdge st v.id p.id)) ∧
    (s.isFollowing = false →
      toggleFollow (some v) t s st =
        (loadFollowerInfo (some v) t (insertFollowEdge st v.id p.id)
            { s with isFollowing := true },
         insertFollowEdge st v.id p.id)) := by
  constructor <;> intro h <;> simp [toggleFollow, hp, h]

/-- Witness for C1's unfollow transition at the fixture store. -/
theorem C1_witness :
    toggleFollow (some exMentor) "t1" sFollowing exStore =
      (loadFollowerInfo (some exMentor) "t1"
          (deleteFollowEdge exStore exMentor.id exTeam.id)
          { sFollowing with isFollowing := false },
       deleteFollowEdge exStore exMentor.id exTeam.id) :=
  (C1_toggleFollow_two_state exMentor exTeam "t1" sFollowing exStore rfl).1 rfl

/-- C8: assuming the local flag matches the store (with the store holding
at most one (viewer, target) edge) and the local count matches a fresh
fetch, the follower count after `toggleFollow`'s reload differs from the
pre-toggle count by exactly −1 for an unfollow and +1 for a follow. -/
theorem C8_count_delta (v p : Profile) (s : ComponentState) (st : Store)
    (hp : s.profile = some p)
    (hflag : (st.followers.filter
        (fun e => e.follower_id == v.id && e.following_id == p.id)).length
      = (if s.isFollowing then 1 else 0))
    (hcount : s.followerCount = (fetchFollowers st p.id).length) :
    (s.isFollowing = true →
      ((toggleFollow (some v) p.id s st).1).followerCount = s.followerCount - 1) ∧
    (s.isFollowing = false →
      ((toggleFollow (some v) p.id s st).1).followerCount = s.followerCount + 1) := by
  rw [fetchFollowers_length] at hcount
  constructor <;> intro hIf
  · rw [hIf] at hflag
    simp at hflag
    have h1 : (toggleFollow (some v) p.id s st).1 =
        loadFollowerInfo (some v) p.id (deleteFollowEdge st v.id p.id)
          { s with isFollowing := false } := by
      simp [toggleFollow, hp, hIf]
    rw [h1, loadFollowerInfo_count, fetchFollowers_length]
    have hdel : (deleteFollowEdge st v.id p.id).followers =
        st.followers.filter
          (fun e => !(e.follower_id == v.id && e.following_id == p.id)) := rfl
    rw [hdel]
    have hsum := count_after_delete st.followers v.id p.id
    omega
  · rw [hIf] at hflag
    simp at hflag
    have h1 : (toggleFollow (some v) p.id s st).1 =
        loadFollowerInfo (some v) p.id (insertFollowEdge st v.id p.id)
          { s with isFollowing := true } := by
      simp [toggleFollow, hp, hIf]
    rw [h1, loadFollowerInfo_count, fetchFollowers_length]
    have hins : (insertFollowEdge st v.id p.id).followers =
        st.followers ++ [⟨v.id, p.id⟩] := rfl
    rw [hins, List.filter_append]
    simp [List.filter_cons]
    omega

/-- Witness for C8's unfollow delta at the fixture store. -/
theorem C8_witness :
    ((toggleFollow (some exMentor) exTeam.id sFollowing exStore).1).followerCount =
      sFollowing.followerCount - 1 :=
  (C8_count_delta exMentor exTeam sFollowing exStore rfl (by decide) (by decide)).1 rfl

/-- C2: when the viewer's role differs from the target's, any row the
connect handler inserts carries `mentor_id` = the identifier of the
mentor-role side, `team_id` = the identifier of the team-role side —
whichever of the two is the viewer — and status `accepted`; otherwise
the connections table is left unchanged. -/
theorem C2_connect_canonical_insert (v p : Profile) (st : Store)
    (hdiff : v.user_type ≠ p.user_type) :
    (connectOnClick v p st).1.connections = st.connections ∨
    (v.user_type = UserType.mentor ∧ p.user_type = UserType.team ∧
      (connectOnClick v p st).1.connections =
        st.connections ++ [⟨v.id, p.id, "accepted"⟩]) ∨
    (v.user_type = UserType.team ∧ p.user_type = UserType.mentor ∧
      (connectOnClick v p st).1.connections =
        st.connections ++ [⟨p.id, v.id, "accepted"⟩]) := by
  cases hd : connectionQueryData v p st with
  | some c =>
      left
      simp [connectOnClick, hd]
  | none =>
      cases hv : v.user_type <;> cases hp2 : p.user_type
      · exact absurd (hv.trans hp2.symm) hdiff
      · right; left
        exact ⟨rfl, rfl, by simp [connectOnClick, hd, hv]⟩
      · right; right
        exact ⟨rfl, rfl, by simp [connectOnClick, hd, hv]⟩
      · exact absurd (hv.trans hp2.symm) hdiff

/-- Witness for C2 at the fixture pair, where no connection exists yet
and the mentor is the viewer. -/
theorem C2_witness :
    (connectOnClick exMentor exTeam exStore).1.connections = exStore.connections ∨
    (exMentor.user_type = UserType.mentor ∧ exTeam.user_type = UserType.team ∧
      (connectOnClick exMentor exTeam exStore).1.connections =
        exStore.connections ++ [⟨exMentor.id, exTeam.id, "accepted"⟩]) ∨
    (exMentor.user_type = UserType.team ∧ exTeam.user_type = UserType.mentor ∧
      (connectOnClick exMentor exTeam exStore).1.connections =
        exStore.connections ++ [⟨exTeam.id, exMentor.id, "accepted"⟩]) :=
  C2_connect_canonical_insert exMentor exTeam exStore (by decide)

/-- C3: when the store holds exactly one connection matching the
handler's existence query, the connect handler inserts nothing (the
store is returned unchanged); in every case it navigates the viewer to
the target's profile view; and for differing roles the existence query
matches precisely the canonical (mentor-side id, team-side id) pair. -/
theorem C3_connect_guard (v p : Profile) (st : Store) :
    ((st.connections.filter
        (connectionQueryMatch (v.user_type == UserType.mentor)
          (p.user_type == UserType.mentor) p.id v.id)).length = 1 →
      (connectOnClick v p st).1 = st) ∧
    (connectOnClick v p st).2 = ⟨"profile", some p.id⟩ ∧
    (v.user_type ≠ p.user_type → ∀ c : ConnectionRow,
      connectionQueryMatch (v.user_type == UserType.mentor)
          (p.user_type == UserType.mentor) p.id v.id c =
        (c.mentor_id == mentorSideId v p && c.team_id == teamSideId v p)) := by
  refine ⟨?_, ?_, ?_⟩
  · intro h1
    obtain ⟨c, hc⟩ := List.length_eq_one.mp h1
    have hd : connectionQueryData v p st = some c := by
      unfold connectionQueryData
      rw [hc]
    simp [connectOnClick, hd]
  · cases hd : connectionQueryData v p st <;> simp [connectOnClick, hd]
  · intro hdiff c
    cases hv : v.user_type <;> cases hp2 : p.user_type
    · exact absurd (hv.trans hp2.symm) hdiff
    · simp [connectionQueryMatch, mentorSideId, teamSideId, hv, hp2, Bool.and_comm]
    · simp [connectionQueryMatch, mentorSideId, teamSideId, hv, hp2, Bool.and_comm]
    · exact absurd (hv.trans hp2.symm) hdiff

/-- Witness for C3 at the fixture pair with the connection already
present. -/
theorem C3_witness :
    (connectOnClick exMentor exTeam connectedStore).1 = connectedStore ∧
    (connectOnClick exMentor exTeam connectedStore).2 = ⟨"profile", some exTeam.id⟩ :=
  ⟨(C3_connect_guard exMentor exTeam connectedStore).1 (by decide),
   (C3_connect_guard exMentor exTeam connectedStore).2.1⟩

/-- C9: at the failing input — no authenticated viewer, a loaded team
profile — the component nevertheless renders the connect ("Mensagem")
button (third flag `true`), because `currentProfile?.user_type !==
profile.user_type` is vacuously true for an absent viewer; the click
handler's `currentProfile!` dereferences would then access an absent
value, so the claimed guarantee fails. -/
theorem C9_connect_button_unguarded :
    render none sLoadedTeam = View.profileView false true true := rfl

end Outmentor
